import Mathlib

/-!
Shallow embedding of the NN-Downloader repository (Python) in Lean 4.

Each definition mirrors one Python function of the repository; machine
integers are Nat/Int, fallible operations return Option, filesystem and
network effects are threaded explicitly as values.  Download success for
an individual file is abstracted by an oracle `dl : String → Bool`
(success of `BaseAsyncDownloader.download_file` for a given URL), and the
per-page API responses of a run are given as an explicit list of page
results; an exhausted list models the first response that ends the loop
(an empty page or a failed listing call, as noted at each definition).
-/

namespace NNDownloader

/-- Python `str.lower` restricted to the character-wise case map. -/
def pyLower (s : String) : String :=
  String.mk (s.toList.map Char.toLower)

/-- Drop leading and trailing characters satisfying `p`
(Python `str.strip` with the matching character class). -/
def pyStripP (p : Char → Bool) (l : List Char) : List Char :=
  ((l.dropWhile p).reverse.dropWhile p).reverse

/-- Python `str.strip()` (whitespace). -/
def pyStrip (s : String) : String :=
  String.mk (pyStripP Char.isWhitespace s.toList)

/-- Python `str.rstrip("/")`. -/
def pyRstripSlash (s : String) : String :=
  String.mk ((s.toList.reverse.dropWhile (fun c => c == '/')).reverse)

/-- The part of `s` after the last occurrence of `c`, or the whole string
when `c` does not occur: Python `s.rpartition(c)[2]`, which for a
single-character separator also equals `s.split(c)[-1]`. -/
def afterLastChar (c : Char) (s : String) : String :=
  String.mk ((s.toList.reverse.takeWhile (fun x => !(x == c))).reverse)

/-- Python single-character `str.split` on a character list:
`"a//b".split("/")` becomes `["a", "", "b"]`. -/
def splitChar (c : Char) : List Char → List (List Char)
  | [] => [[]]
  | x :: xs =>
    if x == c then [] :: splitChar c xs
    else
      match splitChar c xs with
      | [] => [[x]]
      | h :: t => (x :: h) :: t

/-- Python single-character `str.split` on a string. -/
def pySplitChar (c : Char) (s : String) : List String :=
  (splitChar c s.toList).map String.mk

/-- Python `l[:n]` for a possibly negative bound `n`. -/
def pySliceTo (n : Int) (l : List Char) : List Char :=
  if 0 ≤ n then l.take n.toNat else l.take (l.length - (-n).toNat)

/-- Python `s.rsplit(".", 1)` on a character list that contains a dot:
`(part before the last dot, part after the last dot)`. -/
def rsplitDot (l : List Char) : List Char × List Char :=
  let rev := l.reverse
  let extRev := rev.takeWhile (fun c => !(c == '.'))
  match rev.dropWhile (fun c => !(c == '.')) with
  | [] => (l, [])
  | _ :: restRev => (restRev.reverse, extRev.reverse)

/-! ## BaseAsyncDownloader (src/downloaders/base_async.py) -/

namespace BaseAsyncDownloader

/-- The `unsafe_chars` list of `BaseAsyncDownloader.sanitize_filename`. -/
def forbidden_chars : List Char :=
  "/\\:*?\"<>|\x00$#@&%!\x60^()\x7b\x7d[]=+~,;".toList

/-- `BaseAsyncDownloader.sanitize_filename`: replace each listed character
and each space by an underscore (character-wise, as the sequence of
single-character `str.replace` calls does), strip leading and trailing
dots and spaces, and fall back to `"unnamed"` when the result is empty. -/
def sanitize_filename (filename : String) : String :=
  let safe_name := filename.toList.map
    (fun c => if forbidden_chars.contains c then '_' else c)
  let safe_name := safe_name.map (fun c => if c == ' ' then '_' else c)
  let safe_name := pyStripP (fun c => c == '.' || c == ' ') safe_name
  if safe_name.isEmpty then "unnamed" else String.mk safe_name

/-- An HTTP response delivered to `download_file`. -/
structure HttpResponse where
  status : Nat
  body : String
deriving DecidableEq

/-- The part of the filesystem `download_file` touches: the set of
existing directories and the files with their contents. -/
structure SimpleFS where
  dirs : List String
  fileEntries : List (String × String)
deriving DecidableEq

/-- `BaseAsyncDownloader.download_file`: `none` stands for an exception
while issuing the GET (handled by the `except` branch, which returns
`False`); on a 200 response the parent directory is created and the body
written (overwriting any previous file at `file_path`); on any other
status the function returns `False` without touching the filesystem. -/
def download_file (resp : Option HttpResponse) (parent : String)
    (file_path : String) (fs : SimpleFS) : Bool × SimpleFS :=
  match resp with
  | none => (false, fs)
  | some r =>
    if r.status == 200 then
      let dirs := if fs.dirs.contains parent then fs.dirs else parent :: fs.dirs
      let fileEntries :=
        (file_path, r.body) :: fs.fileEntries.filter (fun pr => !(pr.1 == file_path))
      (true, ⟨dirs, fileEntries⟩)
    else (false, fs)

end BaseAsyncDownloader

/-! ## AsyncDirectoryManager (src/utils/directory_manager_async.py) -/

namespace AsyncDirectoryManager

/-- The character class of the `unsafe_chars` regex
`[:*?"<>|$#@&%!\x60^(){}[\]=+~,;~\0]` (note: no slash, no backslash). -/
def dir_forbidden_chars : List Char :=
  ":*?\"<>|$#@&%!\x60^()\x7b\x7d[]=+~,;\x00".toList

/-- `_sanitize_folder_name`: `re.sub(unsafe_chars, "", folder_name)`. -/
def sanitize_folder_name (folder_name : String) : String :=
  String.mk (folder_name.toList.filter (fun c => !(dir_forbidden_chars.contains c)))

/-- `_truncate_folder_name`: keep at most 90 characters. -/
def truncate_folder_name (folder_name : String) : String :=
  if folder_name.toList.length > 90 then String.mk (folder_name.toList.take 90)
  else folder_name

/-- `_replace_spaces_with_underscores`. -/
def replace_spaces_with_underscores (folder_name : String) : String :=
  String.mk (folder_name.toList.map (fun c => if c == ' ' then '_' else c))

/-- The name computed by `create_folder`: sanitize, then truncate, then
replace spaces (the folder that is created on disk). -/
def create_folder_name (folder_name : String) : String :=
  replace_spaces_with_underscores (truncate_folder_name (sanitize_folder_name folder_name))

/-- `AsyncDirectoryManager.sanitize_filename`: remove the unsafe
characters, replace spaces, apply the 200-character truncation that keeps
room for the extension (Python slice semantics, including the negative
bound when the extension is long), and fall back to `"unnamed"`. -/
def sanitize_filename (filename : String) : String :=
  let sanitized := filename.toList.filter (fun c => !(dir_forbidden_chars.contains c))
  let sanitized := sanitized.map (fun c => if c == ' ' then '_' else c)
  let sanitized :=
    if sanitized.length > 200 then
      if sanitized.contains '.' then
        let pr := rsplitDot sanitized
        let name_part := pr.1
        let ext_part := pr.2
        let max_name_len : Int :=
          if ext_part.isEmpty then 200 else 200 - ext_part.length - 1
        pySliceTo max_name_len name_part ++
          (if ext_part.isEmpty then [] else '.' :: ext_part)
      else sanitized.take 200
    else sanitized
  if sanitized.isEmpty || sanitized == ['.'] then "unnamed" else String.mk sanitized

end AsyncDirectoryManager

/-! ## Traces of a downloader run -/

/-- The record built for an approved image (the dict with keys
`image_address`, `image_format`, `image_id`). -/
structure ApprovedImage where
  image_address : String
  image_format : String
  image_id : String
deriving DecidableEq

/-- What one call of `_download_page_images` does: the ids attempted (a
`download_file` call was issued), the ids successfully written, and the
ids appended to the `db/<site>.db` seen store, each in order. -/
structure PageTrace where
  attempts : List String
  written : List String
  dbAppends : List String
deriving DecidableEq

/-- The observable trace of a whole `download_by_tags`-style loop:
number of page-listing API calls, download attempts, successful writes,
seen-store appends, and the exception (if any) that escaped the loop and
reached the outer handler. -/
structure RunTrace where
  fetches : Nat
  attempts : List String
  written : List String
  dbAppends : List String
  err : Option String
deriving DecidableEq

/-- The value a top-level downloader run yields: the returned boolean,
the error string passed to the progress callback by the outer `except`
branch (when one was), and the loop trace. -/
structure RunResult where
  ok : Bool
  errorReported : Option String
  trace : RunTrace
deriving DecidableEq

/-- Page-processing state for the downloaders that skip items whose file
already exists on disk: attempts, successful writes, and the updated set
of existing file names. -/
structure FsPageStep where
  attempts : List String
  written : List String
  fs : List String
deriving DecidableEq

/-! ## E621Downloader (src/Experimental_Gui/downloaders/e621_async.py) -/

/-- The tag groups of one post, `item["tags"]`; each field is
`item_tags.get(group, [])`. -/
structure E621TagGroups where
  general : List String
  species : List String
  character : List String
  director : List String
  meta : List String
  copyright : List String
  artist : List String
deriving DecidableEq

/-- One element of `data["posts"]`: `id` is `str(item["id"])`, `fileUrl`
is `item.get("file", {}).get("url")` (absent or null becomes `none`), and
`ext` is `item.get("file", {}).get("ext", "jpg")`. -/
structure E621Post where
  id : String
  fileUrl : Option String
  ext : String
  tags : E621TagGroups
deriving DecidableEq

/-- One iteration of the e621 fetch: a non-200 status or an exception in
the request (both `break`), the page-750 API-limit message (`break`), a
normal posts payload, or an exception raised while handling the payload
(for example `data.get` on a non-dict), which escapes to the outer
handler. -/
inductive E621PageResult where
  | fetchError
  | limitMessage
  | posts (ps : List E621Post)
  | raised (e : String)
deriving DecidableEq

/-- The `post_tags` list collected for the blacklist check:
general, species and character tags, then director and meta for the
`e6ai` site and copyright and artist for the others. -/
def e621_collect_tags (site : String) (t : E621TagGroups) : List String :=
  t.general ++ t.species ++ t.character ++
    (if site == "e6ai" then t.director ++ t.meta else t.copyright ++ t.artist)

/-- `passed = sum(1 for blacklisted_tag in blacklist if blacklisted_tag
in post_tags)`; the item is skipped when `passed > 0`. -/
def e621_blacklisted (blacklist : List String) (post_tags : List String) : Bool :=
  0 < (blacklist.filter (fun b => post_tags.contains b)).length

/-- The per-item filter of `E621Downloader.download_by_tags`: skip when
the address is missing or falsy, when any blacklist tag occurs among the
collected tags, or when the seen store is enabled (`db_file` truthy) and
the id was loaded from `db/<site>.db`; otherwise build the approved
record. -/
def e621_approve_post (site : String) (blacklist : List String) (dbT : Bool)
    (seen : List String) (p : E621Post) : Option ApprovedImage :=
  match p.fileUrl with
  | none => none
  | some url =>
    if url == "" then none
    else if e621_blacklisted blacklist (e621_collect_tags site p.tags) then none
    else if dbT && seen.contains p.id then none
    else some ⟨url, p.ext, p.id⟩

/-- `E621Downloader._download_page_images` (download loop only; metadata
side-car writing does not alter the trace): each entry with a truthy
address and id gets exactly one `download_file` call; on success the id
is appended to the seen store (when enabled) right away; on failure the
loop moves to the next entry. -/
def e621_download_page (dl : String → Bool) (dbT : Bool) :
    List ApprovedImage → PageTrace
  | [] => ⟨[], [], []⟩
  | a :: rest =>
    if a.image_address == "" || a.image_id == "" then e621_download_page dl dbT rest
    else
      let r := e621_download_page dl dbT rest
      if dl a.image_address then
        ⟨a.image_id :: r.attempts, a.image_id :: r.written,
         if dbT then a.image_id :: r.dbAppends else r.dbAppends⟩
      else ⟨a.image_id :: r.attempts, r.written, r.dbAppends⟩

/-- The `while True` loop of `E621Downloader.download_by_tags`, starting
at page number `page`.  `maxPages = 0` models a falsy `max_pages`
(`None`).  An exhausted environment list behaves as a response with no
posts (which breaks the loop).  Note the order of the checks: fetch
outcome, API-limit message, empty posts, and only then the
`page >= max_pages` break, before the page is processed. -/
def e621_go (site : String) (blacklist : List String) (dbT : Bool)
    (seen : List String) (dl : String → Bool) (maxPages : Nat) (page : Nat) :
    List E621PageResult → RunTrace
  | [] => ⟨1, [], [], [], none⟩
  | r :: rest =>
    match r with
    | .fetchError => ⟨1, [], [], [], none⟩
    | .limitMessage => ⟨1, [], [], [], none⟩
    | .raised e => ⟨1, [], [], [], some e⟩
    | .posts ps =>
      if ps.isEmpty then ⟨1, [], [], [], none⟩
      else if maxPages ≠ 0 ∧ maxPages ≤ page then ⟨1, [], [], [], none⟩
      else
        let approved := ps.filterMap (e621_approve_post site blacklist dbT seen)
        let pt := e621_download_page dl dbT approved
        let t := e621_go site blacklist dbT seen dl maxPages (page + 1) rest
        ⟨1 + t.fetches, pt.attempts ++ t.attempts, pt.written ++ t.written,
         pt.dbAppends ++ t.dbAppends, t.err⟩

/-- `E621Downloader.download_by_tags`: run the loop from page 1; the
whole body sits in a `try` block whose `except` branch reports
`Error: ...` through the progress callback and returns `False`; a loop
that ends normally falls through to `return True`. -/
def E621Downloader.download_by_tags (site : String) (blacklist : List String)
    (dbT : Bool) (seen : List String) (dl : String → Bool) (maxPages : Nat)
    (env : List E621PageResult) : RunResult :=
  let t := e621_go site blacklist dbT seen dl maxPages 1 env
  match t.err with
  | some e => ⟨false, some e, t⟩
  | none => ⟨true, none, t⟩

/-! ## FurbooruDownloader
(src/Experimental_Gui/downloaders/furbooru_async.py) -/

/-- One element of `data["images"]`: the hidden flag, the flat tag list,
`str(item["id"])`, `item.get("representations", {}).get("full")`, and
`item.get("format", "png")`. -/
structure FurbooruItem where
  hidden_from_users : Bool
  tags : List String
  id : String
  fullUrl : Option String
  fmt : String
deriving DecidableEq

/-- One iteration of the furbooru fetch: non-200 or request exception
(`break`), a payload with its `total` count and image list, or an
exception while handling the payload. -/
inductive FurbooruPageResult where
  | fetchError
  | pageData (total : Nat) (images : List FurbooruItem)
  | raised (e : String)
deriving DecidableEq

/-- The per-item filter of `FurbooruDownloader.download_by_tags`:
skip hidden items, then items with a blacklisted tag (`any(tag in
blacklist for tag in post_tags)`), then items without a full
representation URL, then items whose id was loaded from `db/furbooru.db`
when the store is enabled. -/
def furbooru_approve_item (blacklist : List String) (dbT : Bool)
    (seen : List String) (it : FurbooruItem) : Option ApprovedImage :=
  if it.hidden_from_users then none
  else if it.tags.any (fun t => blacklist.contains t) then none
  else
    match it.fullUrl with
    | none => none
    | some url =>
      if url == "" then none
      else if dbT && seen.contains it.id then none
      else some ⟨url, it.fmt, it.id⟩

/-- `FurbooruDownloader._download_page_images`: same download loop as the
e621 one (no metadata side-car). -/
def furbooru_download_page (dl : String → Bool) (dbT : Bool) :
    List ApprovedImage → PageTrace
  | [] => ⟨[], [], []⟩
  | a :: rest =>
    if a.image_address == "" || a.image_id == "" then furbooru_download_page dl dbT rest
    else
      let r := furbooru_download_page dl dbT rest
      if dl a.image_address then
        ⟨a.image_id :: r.attempts, a.image_id :: r.written,
         if dbT then a.image_id :: r.dbAppends else r.dbAppends⟩
      else ⟨a.image_id :: r.attempts, r.written, r.dbAppends⟩

/-- The `while True` loop of `FurbooruDownloader.download_by_tags`:
fetch outcome, then `data.get("total", 0) == 0` (`break`), then the
`page >= max_pages` break, then the page is processed.  An exhausted
environment behaves as a payload with `total = 0`. -/
def furbooru_go (blacklist : List String) (dbT : Bool) (seen : List String)
    (dl : String → Bool) (maxPages : Nat) (page : Nat) :
    List FurbooruPageResult → RunTrace
  | [] => ⟨1, [], [], [], none⟩
  | r :: rest =>
    match r with
    | .fetchError => ⟨1, [], [], [], none⟩
    | .raised e => ⟨1, [], [], [], some e⟩
    | .pageData total images =>
      if total == 0 then ⟨1, [], [], [], none⟩
      else if maxPages ≠ 0 ∧ maxPages ≤ page then ⟨1, [], [], [], none⟩
      else
        let approved := images.filterMap (furbooru_approve_item blacklist dbT seen)
        let pt := furbooru_download_page dl dbT approved
        let t := furbooru_go blacklist dbT seen dl maxPages (page + 1) rest
        ⟨1 + t.fetches, pt.attempts ++ t.attempts, pt.written ++ t.written,
         pt.dbAppends ++ t.dbAppends, t.err⟩

/-- `FurbooruDownloader.download_by_tags`: loop from page 1 inside the
`try` block; exceptions reach the outer handler, which reports the error
and returns `False`; otherwise `return True`. -/
def FurbooruDownloader.download_by_tags (blacklist : List String) (dbT : Bool)
    (seen : List String) (dl : String → Bool) (maxPages : Nat)
    (env : List FurbooruPageResult) : RunResult :=
  let t := furbooru_go blacklist dbT seen dl maxPages 1 env
  match t.err with
  | some e => ⟨false, some e, t⟩
  | none => ⟨true, none, t⟩

/-! ## Rule34Downloader (src/downloaders/rule34_async.py) -/

/-- One element of the rule34 JSON list.  `fileUrl` and `idKey` are
`some` exactly when the keys `file_url` and `id` are present; `image` is
the optional image name; `tags` carries the raw tag data of the API item,
which `download_by_tags` never reads. -/
structure Rule34Item where
  fileUrl : Option String
  idKey : Option String
  image : Option String
  tags : List String
deriving DecidableEq

/-- One iteration of the rule34 fetch: `fetch_json` returned `None` (or a
falsy or non-list payload, all of which `break`), a JSON list of items,
or an exception escaping to the outer handler. -/
inductive R34PageResult where
  | fetchNone
  | items (l : List Rule34Item)
  | raised (e : String)
deriving DecidableEq

/-- The file extension choice of the rule34 item loop: last dot-component
of the image name when present, else of the URL, with `"jpg"` as the
no-dot fallback. -/
def rule34_ext (image : Option String) (url : String) : String :=
  match image with
  | some image_name =>
    if image_name.toList.contains '.' then afterLastChar '.' image_name else "jpg"
  | none =>
    if url.toList.contains '.' then afterLastChar '.' url else "jpg"

/-- The item loop of one rule34 page: skip items missing `file_url` or
`id`, skip items whose target file already exists, otherwise issue one
`download_file` call; a success adds the file to the directory. -/
def rule34_process_page (dl : String → Bool) (fs : List String) :
    List Rule34Item → FsPageStep
  | [] => ⟨[], [], fs⟩
  | it :: rest =>
    match it.fileUrl, it.idKey with
    | some image_url, some image_id =>
      let file_path := image_id ++ "." ++ rule34_ext it.image image_url
      if fs.contains file_path then rule34_process_page dl fs rest
      else
        let succ := dl image_url
        let fs2 := if succ then file_path :: fs else fs
        let r := rule34_process_page dl fs2 rest
        ⟨image_id :: r.attempts,
         (if succ then image_id :: r.written else r.written), r.fs⟩
    | _, _ => rule34_process_page dl fs rest

/-- The `while True` loop of `Rule34Downloader.download_by_tags`:
the `page > max_pages` break comes BEFORE the fetch; then a falsy or
empty or non-list payload breaks; then the items are processed; then
`page` advances and a short page (< 1000 items) breaks.  An exhausted
environment behaves as a `None` payload. -/
def rule34_go (dl : String → Bool) (maxPages : Nat) (page : Nat)
    (fs : List String) : List R34PageResult → RunTrace
  | [] =>
    if maxPages ≠ 0 ∧ maxPages < page then ⟨0, [], [], [], none⟩
    else ⟨1, [], [], [], none⟩
  | r :: rest =>
    if maxPages ≠ 0 ∧ maxPages < page then ⟨0, [], [], [], none⟩
    else
      match r with
      | .fetchNone => ⟨1, [], [], [], none⟩
      | .raised e => ⟨1, [], [], [], some e⟩
      | .items l =>
        if l.isEmpty then ⟨1, [], [], [], none⟩
        else
          let st := rule34_process_page dl fs l
          if l.length < 1000 then ⟨1, st.attempts, st.written, [], none⟩
          else
            let t := rule34_go dl maxPages (page + 1) st.fs rest
            ⟨1 + t.fetches, st.attempts ++ t.attempts, st.written ++ t.written,
             [], t.err⟩

/-- `Rule34Downloader.download_by_tags`: loop from page 1; the seen-id
store is never read or written (`dbAppends` stays empty); the function
returns `downloaded_count > 0`, and the outer handler reports and returns
`False` on an escaping exception. -/
def Rule34Downloader.download_by_tags (dl : String → Bool) (maxPages : Nat)
    (fs : List String) (env : List R34PageResult) : RunResult :=
  let t := rule34_go dl maxPages 1 fs env
  match t.err with
  | some e => ⟨false, some e, t⟩
  | none => ⟨decide (0 < t.written.length), none, t⟩

/-- The module-level wrapper `download_rule34_tags`: it accepts
`blacklist` and `db_file` but forwards only `tags`, `max_pages` and
`output_dir` to `Rule34Downloader.download_by_tags`, exactly as the
source call `downloader.download_by_tags(tags, max_pages, output_dir)`
does. -/
def download_rule34_tags (tags : String) (blacklist : List String)
    (maxPages : Nat) (db_file : Option String) (dl : String → Bool)
    (fs : List String) (env : List R34PageResult) : RunResult :=
  Rule34Downloader.download_by_tags dl maxPages fs env

/-! ## LusciousDownloader (src/downloaders/luscious_async.py) -/

/-- One element of `picture_items`: `item.get("id")`, `item.get("title")`
and `item.get("url_to_original")`. -/
structure LusciousItem where
  id : Option String
  title : Option String
  url_to_original : Option String
deriving DecidableEq

/-- One iteration of the luscious fetch: `post_json` returned `None`
(`break`), a parsed payload with its page count and items, a `KeyError`
while indexing the payload (caught, `break`), or another exception
escaping to the outer handler. -/
inductive LusciousPageResult where
  | postNone
  | parsed (total_pages : Nat) (items : List LusciousItem)
  | keyErr
  | raised (e : String)
deriving DecidableEq

/-- The item loop of one luscious page: items without
`url_to_original` are skipped, the target name is
`<sanitized title>_<id>.<ext>`, existing files are skipped, and each
remaining item gets one `download_file` call. -/
def luscious_process_items (dl : String → Bool) (fs : List String) :
    List LusciousItem → FsPageStep
  | [] => ⟨[], [], fs⟩
  | it :: rest =>
    let image_id := it.id.getD "unknown"
    let image_title := it.title.getD ("image_" ++ image_id)
    match it.url_to_original with
    | none => luscious_process_items dl fs rest
    | some image_url =>
      if image_url == "" then luscious_process_items dl fs rest
      else
        let file_ext :=
          if image_url.toList.contains '.' then afterLastChar '.' image_url else "jpg"
        let safe_image_title := BaseAsyncDownloader.sanitize_filename image_title
        let file_path := safe_image_title ++ "_" ++ image_id ++ "." ++ file_ext
        if fs.contains file_path then luscious_process_items dl fs rest
        else
          let succ := dl image_url
          let fs2 := if succ then file_path :: fs else fs
          let r := luscious_process_items dl fs2 rest
          ⟨image_id :: r.attempts,
           (if succ then image_id :: r.written else r.written), r.fs⟩

/-- The `while True` loop of `LusciousDownloader.download_album`:
fetch outcome, then `page > total_pages` (`break`), then the empty-item
checks (`break`), then the page items are processed and `page` advances.
An exhausted environment behaves as a `None` payload. -/
def luscious_go (dl : String → Bool) (page : Nat) (fs : List String) :
    List LusciousPageResult → RunTrace
  | [] => ⟨1, [], [], [], none⟩
  | r :: rest =>
    match r with
    | .postNone => ⟨1, [], [], [], none⟩
    | .keyErr => ⟨1, [], [], [], none⟩
    | .raised e => ⟨1, [], [], [], some e⟩
    | .parsed total_pages items =>
      if total_pages < page then ⟨1, [], [], [], none⟩
      else if items.isEmpty && page == 2 then ⟨1, [], [], [], none⟩
      else if items.isEmpty then ⟨1, [], [], [], none⟩
      else
        let st := luscious_process_items dl fs items
        let t := luscious_go dl (page + 1) st.fs rest
        ⟨1 + t.fetches, st.attempts ++ t.attempts, st.written ++ t.written,
         [], t.err⟩

/-- `LusciousDownloader.download_album`: parse the URL (the three early
`return False` paths raise no exception and issue no fetch), then run the
loop from page 1; the return value is `downloaded_count > 0`, and the
outer handler reports and returns `False` on an escaping exception. -/
def LusciousDownloader.download_album (url : String) (dl : String → Bool)
    (fs : List String) (env : List LusciousPageResult) : RunResult :=
  let parts := pySplitChar '/' url
  if parts.length < 6 then ⟨false, none, ⟨0, [], [], [], none⟩⟩
  else
    let segOpt : Option String :=
      if parts.getD 3 "" == "pictures" then some (parts.getD 5 "")
      else if parts.getD 3 "" == "album" || parts.getD 3 "" == "albums" then
        some (parts.getD 4 "")
      else none
    match segOpt with
    | none => ⟨false, none, ⟨0, [], [], [], none⟩⟩
    | some seg =>
      let album_id := afterLastChar '_' seg
      if album_id == "" then ⟨false, none, ⟨0, [], [], [], none⟩⟩
      else
        let t := luscious_go dl 1 fs env
        match t.err with
        | some e => ⟨false, some e, t⟩
        | none => ⟨decide (0 < t.written.length), none, t⟩

/-! ## DownloadTask and the queue
(src/Experimental_Gui/gui/tkinter_app.py) -/

/-- `task_type` of a `DownloadTask` (the strings `"url"` and `"tags"`). -/
inductive TaskType where
  | url
  | tags
deriving DecidableEq

/-- A queued download request.  `max_pages = 0` models a falsy
`max_pages` (`None`); an absent `url` or `tags` text is the empty
string. -/
structure DownloadTask where
  site : String
  task_type : TaskType
  url : String
  tags : String
  max_pages : Nat
deriving DecidableEq

/-- `DownloadTask.get_unique_key`: for URL tasks
`site|url|<url lower-cased, trailing slashes stripped>`; for tag tasks
`site|tags|<tags lower-cased and stripped>|<max_pages or "unlimited">`. -/
def get_unique_key (t : DownloadTask) : String :=
  match t.task_type with
  | .url => t.site ++ "|url|" ++ pyRstripSlash (pyLower t.url)
  | .tags =>
    let tags_normalized := if t.tags == "" then "" else pyStrip (pyLower t.tags)
    t.site ++ "|tags|" ++ tags_normalized ++ "|" ++
      (if t.max_pages == 0 then "unlimited" else toString t.max_pages)

/-- `TkinterApp._is_duplicate_task`: the new task equals (by
`get_unique_key`) the current download or some queued task.  The drain
and re-put of the queue preserves it, so only the boolean is modelled. -/
def is_duplicate_task (current : Option DownloadTask)
    (queue : List DownloadTask) (new_task : DownloadTask) : Bool :=
  (match current with
   | some c => get_unique_key new_task == get_unique_key c
   | none => false)
  || queue.any (fun q => get_unique_key new_task == get_unique_key q)

/-- `TkinterApp.add_to_queue` on a created task: a duplicate is rejected
and the queue is left as it was; otherwise the task is appended.  The
returned boolean tells whether the task was accepted. -/
def add_to_queue (current : Option DownloadTask) (queue : List DownloadTask)
    (task : DownloadTask) : List DownloadTask × Bool :=
  if is_duplicate_task current queue task then (queue, false)
  else (queue ++ [task], true)

/-- Modelled from the claim wording of C6, not from the source: the
normalized identity `(site, mode, query lower-cased and trimmed with a
trailing slash stripped for URLs, max_pages)`.  It exists only to be
compared against `get_unique_key`. -/
def claim_normalized_identity (t : DownloadTask) : String × String × String × Nat :=
  match t.task_type with
  | .url => (t.site, "url", pyRstripSlash (pyStrip (pyLower t.url)), t.max_pages)
  | .tags => (t.site, "tags", pyStrip (pyLower t.tags), t.max_pages)

/-! ## Helper lemmas -/

theorem mem_of_mem_pyStripP {p : Char → Bool} {l : List Char} {c : Char}
    (h : c ∈ pyStripP p l) : c ∈ l := by
  unfold pyStripP at h
  rw [List.mem_reverse] at h
  have h2 := (List.dropWhile_sublist _).subset h
  rw [List.mem_reverse] at h2
  exact (List.dropWhile_sublist _).subset h2

theorem toList_mk (l : List Char) : (String.mk l).toList = l := rfl

theorem mem_of_mem_pySliceTo {n : Int} {l : List Char} {c : Char}
    (h : c ∈ pySliceTo n l) : c ∈ l := by
  unfold pySliceTo at h
  split at h
  · exact (List.take_sublist _ _).subset h
  · exact (List.take_sublist _ _).subset h

theorem mem_of_mem_rsplitDot_fst {l : List Char} {c : Char}
    (h : c ∈ (rsplitDot l).1) : c ∈ l := by
  unfold rsplitDot at h
  dsimp only at h
  rcases hd : l.reverse.dropWhile (fun x => !(x == '.')) with _ | ⟨x, restRev⟩
  · rw [hd] at h
    exact h
  · rw [hd] at h
    dsimp only at h
    rw [List.mem_reverse] at h
    have h2 : c ∈ l.reverse.dropWhile (fun x => !(x == '.')) := by
      rw [hd]
      exact List.mem_cons_of_mem _ h
    have h3 := (List.dropWhile_sublist _).subset h2
    rw [List.mem_reverse] at h3
    exact h3

theorem mem_of_mem_rsplitDot_snd {l : List Char} {c : Char}
    (h : c ∈ (rsplitDot l).2) : c ∈ l := by
  unfold rsplitDot at h
  dsimp only at h
  rcases hd : l.reverse.dropWhile (fun x => !(x == '.')) with _ | ⟨x, restRev⟩
  · rw [hd] at h
    dsimp only at h
    exact absurd h (List.not_mem_nil c)
  · rw [hd] at h
    dsimp only at h
    rw [List.mem_reverse] at h
    have h2 := (List.takeWhile_sublist _).subset h
    rw [List.mem_reverse] at h2
    exact h2

set_option maxRecDepth 4000 in
/-- C9 check: the three parts of the sanitizer claim that fail.  The
folder pipeline maps `":"` to the empty name; the base sanitizer keeps a
91-character name untruncated; and the directory-manager file sanitizer
exceeds its own 200-character truncation when the text after the last dot
is longer than the limit (the Python negative slice empties the name part
and the whole extension is re-appended). -/
theorem c9_counterexample :
    AsyncDirectoryManager.create_folder_name ":" = ""
    ∧ (BaseAsyncDownloader.sanitize_filename
        (String.mk (List.replicate 91 'a'))).toList.length = 91
    ∧ (AsyncDirectoryManager.sanitize_filename
        ("a." ++ String.mk (List.replicate 300 'b'))).toList.length = 301 := by
  refine ⟨rfl, by decide, by decide⟩

theorem base_sanitize_char_safe (a : Char) :
    (!(BaseAsyncDownloader.forbidden_chars.contains
        ((fun c => if c == ' ' then '_' else c)
          ((fun c => if BaseAsyncDownloader.forbidden_chars.contains c then '_' else c) a)))
      && !(((fun c => if c == ' ' then '_' else c)
          ((fun c => if BaseAsyncDownloader.forbidden_chars.contains c then '_' else c) a)) == ' '))
      = true := by
  by_cases hf : BaseAsyncDownloader.forbidden_chars.contains a = true
  · simp only [hf, if_true]
    decide
  · have hf2 : a ∉ BaseAsyncDownloader.forbidden_chars := by
      simpa using hf
    by_cases hs : a = ' '
    · subst hs
      decide
    · simp [hf2, hs]

theorem base_fallback_length (l : List Char) :
    0 < (if l.isEmpty then "unnamed" else String.mk l).toList.length := by
  split
  · decide
  · rename_i h
    cases l with
    | nil => simp at h
    | cons x xs => simp [toList_mk]

theorem fallback_all (p : Char → Bool) (hp : ("unnamed".toList.all p) = true)
    (l : List Char) (h : ∀ c ∈ l, p c = true) :
    ((if l.isEmpty then "unnamed" else String.mk l).toList.all p) = true := by
  split
  · exact hp
  · rw [toList_mk, List.all_eq_true]
    exact h

theorem dir_fallback_length (l : List Char) :
    0 < (if l.isEmpty || l == ['.'] then "unnamed" else String.mk l).toList.length := by
  split
  · decide
  · rename_i h
    rw [Bool.or_eq_true, not_or] at h
    cases l with
    | nil => exact absurd rfl h.1
    | cons x xs => simp [toList_mk]

theorem dir_fallback_all (p : Char → Bool) (hp : ("unnamed".toList.all p) = true)
    (l : List Char) (h : ∀ c ∈ l, p c = true) :
    ((if l.isEmpty || l == ['.'] then "unnamed" else String.mk l).toList.all p) = true := by
  split
  · exact hp
  · rw [toList_mk, List.all_eq_true]
    exact h

/-- C9 (amended): `BaseAsyncDownloader.sanitize_filename` always yields a
non-empty name without its unsafe characters and without spaces (but with
no length bound); the folder name built by
`AsyncDirectoryManager.create_folder` has at most 90 characters and none
of its unsafe characters and no spaces (but may be empty); and
`AsyncDirectoryManager.sanitize_filename` always yields a non-empty name
without its unsafe characters and without spaces (but its 200-character
truncation is not a hard bound). -/
theorem c9_sanitizer_properties (s : String) :
    0 < (BaseAsyncDownloader.sanitize_filename s).toList.length
    ∧ ((BaseAsyncDownloader.sanitize_filename s).toList.all
        (fun c => !(BaseAsyncDownloader.forbidden_chars.contains c) && !(c == ' ')))
        = true
    ∧ (AsyncDirectoryManager.create_folder_name s).toList.length ≤ 90
    ∧ ((AsyncDirectoryManager.create_folder_name s).toList.all
        (fun c => !(AsyncDirectoryManager.dir_forbidden_chars.contains c) && !(c == ' ')))
        = true
    ∧ 0 < (AsyncDirectoryManager.sanitize_filename s).toList.length
    ∧ ((AsyncDirectoryManager.sanitize_filename s).toList.all
        (fun c => !(AsyncDirectoryManager.dir_forbidden_chars.contains c) && !(c == ' ')))
        = true := by
  refine ⟨?_, ?_, ?_, ?_, ?_, ?_⟩
  · unfold BaseAsyncDownloader.sanitize_filename
    exact base_fallback_length _
  · unfold BaseAsyncDownloader.sanitize_filename
    refine fallback_all _ (by decide) _ ?_
    intro c hc
    have hc2 := mem_of_mem_pyStripP hc
    rw [List.map_map] at hc2
    obtain ⟨a, _, rfl⟩ := List.mem_map.1 hc2
    exact base_sanitize_char_safe a
  · unfold AsyncDirectoryManager.create_folder_name
      AsyncDirectoryManager.replace_spaces_with_underscores
    rw [toList_mk, List.length_map]
    unfold AsyncDirectoryManager.truncate_folder_name
    split
    · rw [toList_mk, List.length_take]; omega
    · omega
  · unfold AsyncDirectoryManager.create_folder_name
      AsyncDirectoryManager.replace_spaces_with_underscores
    rw [toList_mk, List.all_eq_true]
    intro c hc
    obtain ⟨a, ha, rfl⟩ := List.mem_map.1 hc
    have ha2 : a ∈ (AsyncDirectoryManager.sanitize_folder_name s).toList := by
      revert ha
      unfold AsyncDirectoryManager.truncate_folder_name
      split
      · rw [toList_mk]; exact fun h => (List.take_sublist _ _).subset h
      · exact fun h => h
    rw [AsyncDirectoryManager.sanitize_folder_name, toList_mk, List.mem_filter] at ha2
    have ha3 : AsyncDirectoryManager.dir_forbidden_chars.contains a = false := by
      simpa using ha2.2
    by_cases hs : a = ' '
    · subst hs
      decide
    · have ha4 : a ∉ AsyncDirectoryManager.dir_forbidden_chars := by
        simpa using ha2.2
      simp [ha4, hs]
  · unfold AsyncDirectoryManager.sanitize_filename
    exact dir_fallback_length _
  · unfold AsyncDirectoryManager.sanitize_filename
    dsimp only
    refine dir_fallback_all _ (by decide) _ ?_
    have hl2 : ∀ c ∈ ((s.toList.filter
        (fun c => !(AsyncDirectoryManager.dir_forbidden_chars.contains c))).map
        (fun c => if c == ' ' then '_' else c)),
        (!(AsyncDirectoryManager.dir_forbidden_chars.contains c) && !(c == ' ')) = true := by
      intro c hc
      obtain ⟨a, ha, rfl⟩ := List.mem_map.1 hc
      rw [List.mem_filter] at ha
      have ha4 : a ∉ AsyncDirectoryManager.dir_forbidden_chars := by simpa using ha.2
      by_cases hsp : a = ' '
      · subst hsp
        decide
      · simp [ha4, hsp]
    intro c hc
    split at hc
    · split at hc
      · rw [List.mem_append] at hc
        rcases hc with hc1 | hc2
        · exact hl2 _ (mem_of_mem_rsplitDot_fst (mem_of_mem_pySliceTo hc1))
        · split at hc2
          · exact absurd hc2 (List.not_mem_nil c)
          · rcases List.mem_cons.1 hc2 with rfl | hc3
            · decide
            · exact hl2 _ (mem_of_mem_rsplitDot_snd hc3)
      · exact hl2 _ ((List.take_sublist _ _).subset hc)
    · exact hl2 _ hc

/-- C10: a response whose status is not 200 makes `download_file` return
`False` and leave the filesystem untouched: no directory is created and
no file is written. -/
theorem c10_download_file_non200 (r : BaseAsyncDownloader.HttpResponse)
    (parent file_path : String) (fs : BaseAsyncDownloader.SimpleFS)
    (h : r.status ≠ 200) :
    BaseAsyncDownloader.download_file (some r) parent file_path fs = (false, fs) := by
  have h2 : (r.status == 200) = false := by simpa using h
  simp [BaseAsyncDownloader.download_file, h2]

/-- C10 witness: a 404 response leaves an empty filesystem empty. -/
theorem c10_download_file_non200_witness :
    BaseAsyncDownloader.download_file (some ⟨404, "body"⟩) "media/x" "media/x/1.png"
      ⟨[], []⟩ = (false, ⟨[], []⟩) :=
  c10_download_file_non200 ⟨404, "body"⟩ "media/x" "media/x/1.png" ⟨[], []⟩ (by decide)

theorem e621_run_trace (site : String) (bl : List String) (dbT : Bool)
    (seen : List String) (dl : String → Bool) (maxPages : Nat)
    (env : List E621PageResult) :
    (E621Downloader.download_by_tags site bl dbT seen dl maxPages env).trace =
      e621_go site bl dbT seen dl maxPages 1 env := by
  unfold E621Downloader.download_by_tags
  cases h : (e621_go site bl dbT seen dl maxPages 1 env).err <;> simp [h]

theorem furbooru_run_trace (bl : List String) (dbT : Bool)
    (seen : List String) (dl : String → Bool) (maxPages : Nat)
    (env : List FurbooruPageResult) :
    (FurbooruDownloader.download_by_tags bl dbT seen dl maxPages env).trace =
      furbooru_go bl dbT seen dl maxPages 1 env := by
  unfold FurbooruDownloader.download_by_tags
  cases h : (furbooru_go bl dbT seen dl maxPages 1 env).err <;> simp [h]

theorem rule34_run_trace (dl : String → Bool) (maxPages : Nat)
    (fs : List String) (env : List R34PageResult) :
    (Rule34Downloader.download_by_tags dl maxPages fs env).trace =
      rule34_go dl maxPages 1 fs env := by
  unfold Rule34Downloader.download_by_tags
  cases h : (rule34_go dl maxPages 1 fs env).err <;> simp [h]

theorem e621_go_fetches_le (site : String) (bl : List String) (dbT : Bool)
    (seen : List String) (dl : String → Bool) (k : Nat) (hk : k ≠ 0)
    (env : List E621PageResult) :
    ∀ page, page ≤ k →
      (e621_go site bl dbT seen dl k page env).fetches ≤ k + 1 - page := by
  induction env with
  | nil =>
    intro page hp
    simp [e621_go]
    omega
  | cons r rest ih =>
    intro page hp
    match r with
    | .fetchError => simp [e621_go]; omega
    | .limitMessage => simp [e621_go]; omega
    | .raised e => simp [e621_go]; omega
    | .posts ps =>
      by_cases hps : ps.isEmpty
      · simp [e621_go, hps]; omega
      · by_cases hm : (k ≠ 0 ∧ k ≤ page)
        · simp [e621_go, hps, hm]; omega
        · have hlt : page < k := by omega
          have hrec := ih (page + 1) (by omega)
          simp [e621_go, hps, hm]
          omega

theorem furbooru_go_fetches_le (bl : List String) (dbT : Bool)
    (seen : List String) (dl : String → Bool) (k : Nat) (hk : k ≠ 0)
    (env : List FurbooruPageResult) :
    ∀ page, page ≤ k →
      (furbooru_go bl dbT seen dl k page env).fetches ≤ k + 1 - page := by
  induction env with
  | nil =>
    intro page hp
    simp [furbooru_go]
    omega
  | cons r rest ih =>
    intro page hp
    match r with
    | .fetchError => simp [furbooru_go]; omega
    | .raised e => simp [furbooru_go]; omega
    | .pageData total images =>
      by_cases ht : total == 0
      · simp [furbooru_go, ht]; omega
      · by_cases hm : (k ≠ 0 ∧ k ≤ page)
        · simp [furbooru_go, ht, hm]; omega
        · have hlt : page < k := by omega
          have hrec := ih (page + 1) (by omega)
          simp [furbooru_go, ht, hm]
          omega

theorem rule34_go_fetches_le (dl : String → Bool) (k : Nat) (hk : k ≠ 0)
    (env : List R34PageResult) :
    ∀ page fs, (rule34_go dl k page fs env).fetches ≤ k + 1 - page := by
  induction env with
  | nil =>
    intro page fs
    by_cases h : (k ≠ 0 ∧ k < page)
    · simp [rule34_go, h]
    · simp [rule34_go, h]
      omega
  | cons r rest ih =>
    intro page fs
    by_cases h : (k ≠ 0 ∧ k < page)
    · simp [rule34_go, h]
    · match r with
      | .fetchNone => simp [rule34_go, h]; omega
      | .raised e => simp [rule34_go, h]; omega
      | .items l =>
        by_cases hl : l.isEmpty
        · simp [rule34_go, h, hl]; omega
        · by_cases hlen : l.length < 1000
          · simp [rule34_go, h, hl, hlen]; omega
          · have hrec := ih (page + 1) (rule34_process_page dl fs l).fs
            simp [rule34_go, h, hl, hlen]
            omega

/-- C3: with `max_pages` configured to a positive `k`, each of the three
tag-search downloaders issues at most `k` page-fetch calls in any
environment. -/
theorem c3_page_limit (site : String) (bl : List String) (dbT : Bool)
    (seen : List String) (dl : String → Bool) (k : Nat) (hk : 0 < k)
    (envE : List E621PageResult) (envF : List FurbooruPageResult)
    (fs : List String) (envR : List R34PageResult) :
    (E621Downloader.download_by_tags site bl dbT seen dl k envE).trace.fetches ≤ k
    ∧ (FurbooruDownloader.download_by_tags bl dbT seen dl k envF).trace.fetches ≤ k
    ∧ (Rule34Downloader.download_by_tags dl k fs envR).trace.fetches ≤ k := by
  refine ⟨?_, ?_, ?_⟩
  · rw [e621_run_trace]
    have := e621_go_fetches_le site bl dbT seen dl k (by omega) envE 1 (by omega)
    omega
  · rw [furbooru_run_trace]
    have := furbooru_go_fetches_le bl dbT seen dl k (by omega) envF 1 (by omega)
    omega
  · rw [rule34_run_trace]
    have := rule34_go_fetches_le dl k (by omega) envR 1 fs
    omega

/-- C3 witness: with `max_pages = 3` and five full pages available, each
downloader fetches at most three pages. -/
theorem c3_page_limit_witness :
    (E621Downloader.download_by_tags "e621" [] false [] (fun _ => true) 3
        (List.replicate 5 (E621PageResult.posts
          [⟨"1", some "u.png", "png", ⟨[], [], [], [], [], [], []⟩⟩]))).trace.fetches ≤ 3
    ∧ (FurbooruDownloader.download_by_tags [] false [] (fun _ => true) 3
        (List.replicate 5 (FurbooruPageResult.pageData 9
          [⟨false, [], "1", some "u.png", "png"⟩]))).trace.fetches ≤ 3
    ∧ (Rule34Downloader.download_by_tags (fun _ => true) 3 []
        (List.replicate 5 (R34PageResult.items
          (List.replicate 1000 ⟨some "u.png", some "1", none, []⟩)))).trace.fetches ≤ 3 :=
  c3_page_limit "e621" [] false [] (fun _ => true) 3 (by decide)
    (List.replicate 5 (E621PageResult.posts
      [⟨"1", some "u.png", "png", ⟨[], [], [], [], [], [], []⟩⟩]))
    (List.replicate 5 (FurbooruPageResult.pageData 9
      [⟨false, [], "1", some "u.png", "png"⟩]))
    []
    (List.replicate 5 (R34PageResult.items
      (List.replicate 1000 ⟨some "u.png", some "1", none, []⟩)))

theorem rule34_go_past_limit (dl : String → Bool) (k page : Nat)
    (fs : List String) (env : List R34PageResult) (h : k ≠ 0 ∧ k < page) :
    rule34_go dl k page fs env = ⟨0, [], [], [], none⟩ := by
  cases env with
  | nil => simp [rule34_go, h]
  | cons r rest => simp [rule34_go, h]

/-- C4 check: with `max_pages = 1` the e621 loop fetches page 1, sees a
valid, non-blacklisted, unseen post on it, and still terminates without a
single download attempt: the limit page is fetched but not processed. -/
theorem c4_counterexample :
    (E621Downloader.download_by_tags "e621" [] false [] (fun _ => true) 1
        [E621PageResult.posts
          [⟨"1", some "u.png", "png", ⟨[], [], [], [], [], [], []⟩⟩]]).trace.fetches = 1
    ∧ (E621Downloader.download_by_tags "e621" [] false [] (fun _ => true) 1
        [E621PageResult.posts
          [⟨"1", some "u.png", "png", ⟨[], [], [], [], [], [], []⟩⟩]]).trace.attempts = []
    ∧ (E621Downloader.download_by_tags "e621" [] false [] (fun _ => true) 1
        [E621PageResult.posts
          [⟨"1", some "u.png", "png", ⟨[], [], [], [], [], [], []⟩⟩]]).trace.written = [] := by
  refine ⟨rfl, rfl, rfl⟩

/-- C4 (amended): when the loop reaches page number `max_pages`, the
rule34 downloader processes the items of that limit page and then stops,
while the e621 and furbooru downloaders stop as soon as the limit page
has been fetched with a non-empty result, before filtering or downloading
any of its items. -/
theorem c4_limit_page_semantics (site : String) (bl : List String) (dbT : Bool)
    (seen : List String) (dl : String → Bool) (k j : Nat)
    (p : E621Post) (ps : List E621Post) (restE : List E621PageResult)
    (total : Nat) (images : List FurbooruItem) (restF : List FurbooruPageResult)
    (l : List Rule34Item) (fs : List String) (restR : List R34PageResult) :
    e621_go site bl dbT seen dl (k + 1) (k + 1 + j)
        (E621PageResult.posts (p :: ps) :: restE) = ⟨1, [], [], [], none⟩
    ∧ furbooru_go bl dbT seen dl (k + 1) (k + 1 + j)
        (FurbooruPageResult.pageData (total + 1) images :: restF) = ⟨1, [], [], [], none⟩
    ∧ rule34_go dl (k + 1) (k + 1) fs (R34PageResult.items l :: restR)
      = ⟨1, (rule34_process_page dl fs l).attempts,
          (rule34_process_page dl fs l).written, [], none⟩ := by
  refine ⟨?_, ?_, ?_⟩
  · have hm : ((k + 1) ≠ 0 ∧ (k + 1) ≤ (k + 1 + j)) := by omega
    simp [e621_go, hm]
  · have hm : ((k + 1) ≠ 0 ∧ (k + 1) ≤ (k + 1 + j)) := by omega
    simp [furbooru_go, hm]
  · have hm : ¬((k + 1) ≠ 0 ∧ (k + 1) < (k + 1)) := by omega
    by_cases hl : l.isEmpty
    · rw [List.isEmpty_iff] at hl
      subst hl
      simp [rule34_go, rule34_process_page, hm]
    · by_cases hlen : l.length < 1000
      · simp [rule34_go, hm, hl, hlen]
      · simp [rule34_go, hm, hl, hlen,
          rule34_go_past_limit dl (k + 1) (k + 1 + 1) (rule34_process_page dl fs l).fs restR
            (by omega)]

theorem e621_download_page_spec (dl : String → Bool) (dbT : Bool)
    (l : List ApprovedImage) :
    e621_download_page dl dbT l =
      ⟨((l.filter (fun a => !(a.image_address == "") && !(a.image_id == ""))).map
          (fun a => a.image_id)),
       (((l.filter (fun a => !(a.image_address == "") && !(a.image_id == ""))).filter
          (fun a => dl a.image_address)).map (fun a => a.image_id)),
       (if dbT then
          (((l.filter (fun a => !(a.image_address == "") && !(a.image_id == ""))).filter
            (fun a => dl a.image_address)).map (fun a => a.image_id))
        else [])⟩ := by
  induction l with
  | nil =>
    cases dbT <;> rfl
  | cons a rest ih =>
    by_cases h1 : (a.image_address == "" || a.image_id == "") = true
    · have hpred : (!(a.image_address == "") && !(a.image_id == "")) = false := by
        rw [← Bool.not_or, h1]
        rfl
      simp [e621_download_page, h1, hpred, ih]
    · have h1f : (a.image_address == "" || a.image_id == "") = false := by
        simpa using h1
      have hpred : (!(a.image_address == "") && !(a.image_id == "")) = true := by
        rw [← Bool.not_or, h1f]
        rfl
      by_cases h2 : dl a.image_address
      · simp [e621_download_page, h1f, hpred, h2, ih]
        cases dbT <;> simp
      · have h2f : dl a.image_address = false := by simpa using h2
        simp [e621_download_page, h1f, hpred, h2f, ih]

theorem furbooru_download_page_spec (dl : String → Bool) (dbT : Bool)
    (l : List ApprovedImage) :
    furbooru_download_page dl dbT l =
      ⟨((l.filter (fun a => !(a.image_address == "") && !(a.image_id == ""))).map
          (fun a => a.image_id)),
       (((l.filter (fun a => !(a.image_address == "") && !(a.image_id == ""))).filter
          (fun a => dl a.image_address)).map (fun a => a.image_id)),
       (if dbT then
          (((l.filter (fun a => !(a.image_address == "") && !(a.image_id == ""))).filter
            (fun a => dl a.image_address)).map (fun a => a.image_id))
        else [])⟩ := by
  induction l with
  | nil =>
    cases dbT <;> rfl
  | cons a rest ih =>
    by_cases h1 : (a.image_address == "" || a.image_id == "") = true
    · have hpred : (!(a.image_address == "") && !(a.image_id == "")) = false := by
        rw [← Bool.not_or, h1]
        rfl
      simp [furbooru_download_page, h1, hpred, ih]
    · have h1f : (a.image_address == "" || a.image_id == "") = false := by
        simpa using h1
      have hpred : (!(a.image_address == "") && !(a.image_id == "")) = true := by
        rw [← Bool.not_or, h1f]
        rfl
      by_cases h2 : dl a.image_address
      · simp [furbooru_download_page, h1f, hpred, h2, ih]
        cases dbT <;> simp
      · have h2f : dl a.image_address = false := by simpa using h2
        simp [furbooru_download_page, h1f, hpred, h2f, ih]

theorem e621_go_dl_independent (site : String) (bl : List String) (dbT : Bool)
    (seen : List String) (dl₁ dl₂ : String → Bool) (k : Nat)
    (env : List E621PageResult) :
    ∀ page,
      (e621_go site bl dbT seen dl₁ k page env).fetches =
        (e621_go site bl dbT seen dl₂ k page env).fetches
      ∧ (e621_go site bl dbT seen dl₁ k page env).attempts =
          (e621_go site bl dbT seen dl₂ k page env).attempts := by
  induction env with
  | nil => intro page; exact ⟨rfl, rfl⟩
  | cons r rest ih =>
    intro page
    match r with
    | .fetchError => exact ⟨rfl, rfl⟩
    | .limitMessage => exact ⟨rfl, rfl⟩
    | .raised e => exact ⟨rfl, rfl⟩
    | .posts ps =>
      by_cases hps : ps.isEmpty
      · simp [e621_go, hps]
      · by_cases hm : (k ≠ 0 ∧ k ≤ page)
        · simp [e621_go, hps, hm]
        · have h := ih (page + 1)
          simp [e621_go, hps, hm, h.1, h.2, e621_download_page_spec]

theorem furbooru_go_dl_independent (bl : List String) (dbT : Bool)
    (seen : List String) (dl₁ dl₂ : String → Bool) (k : Nat)
    (env : List FurbooruPageResult) :
    ∀ page,
      (furbooru_go bl dbT seen dl₁ k page env).fetches =
        (furbooru_go bl dbT seen dl₂ k page env).fetches
      ∧ (furbooru_go bl dbT seen dl₁ k page env).attempts =
          (furbooru_go bl dbT seen dl₂ k page env).attempts := by
  induction env with
  | nil => intro page; exact ⟨rfl, rfl⟩
  | cons r rest ih =>
    intro page
    match r with
    | .fetchError => exact ⟨rfl, rfl⟩
    | .raised e => exact ⟨rfl, rfl⟩
    | .pageData total images =>
      by_cases ht : total == 0
      · simp [furbooru_go, ht]
      · by_cases hm : (k ≠ 0 ∧ k ≤ page)
        · simp [furbooru_go, ht, hm]
        · have h := ih (page + 1)
          simp [furbooru_go, ht, hm, h.1, h.2, furbooru_download_page_spec]

/-- C5: in the e621 and furbooru page-download loops every eligible item
is attempted exactly once, in order, whatever the download outcomes are
(no retry); the successfully written ids are exactly the attempted ids on
which `download_file` succeeds; the seen-store appends are exactly the
written ids, one per item, in the same order (and none when the store is
disabled), so a failed id is never appended; and the set of fetched pages
and attempted items of a whole run does not depend on the download
outcomes, so a failure aborts neither the page nor the job. -/
theorem c5_failed_download_semantics (dl dl₁ dl₂ : String → Bool) (dbT : Bool)
    (l : List ApprovedImage) (site : String) (bl : List String)
    (seen : List String) (k : Nat) (envE : List E621PageResult)
    (envF : List FurbooruPageResult) :
    (e621_download_page dl dbT l).attempts =
      ((l.filter (fun a => !(a.image_address == "") && !(a.image_id == ""))).map
        (fun a => a.image_id))
    ∧ (e621_download_page dl dbT l).written =
      (((l.filter (fun a => !(a.image_address == "") && !(a.image_id == ""))).filter
        (fun a => dl a.image_address)).map (fun a => a.image_id))
    ∧ (e621_download_page dl dbT l).dbAppends =
      (if dbT then (e621_download_page dl dbT l).written else [])
    ∧ (furbooru_download_page dl dbT l).attempts =
      ((l.filter (fun a => !(a.image_address == "") && !(a.image_id == ""))).map
        (fun a => a.image_id))
    ∧ (furbooru_download_page dl dbT l).written =
      (((l.filter (fun a => !(a.image_address == "") && !(a.image_id == ""))).filter
        (fun a => dl a.image_address)).map (fun a => a.image_id))
    ∧ (furbooru_download_page dl dbT l).dbAppends =
      (if dbT then (furbooru_download_page dl dbT l).written else [])
    ∧ (E621Downloader.download_by_tags site bl dbT seen dl₁ k envE).trace.fetches =
      (E621Downloader.download_by_tags site bl dbT seen dl₂ k envE).trace.fetches
    ∧ (E621Downloader.download_by_tags site bl dbT seen dl₁ k envE).trace.attempts =
      (E621Downloader.download_by_tags site bl dbT seen dl₂ k envE).trace.attempts
    ∧ (FurbooruDownloader.download_by_tags bl dbT seen dl₁ k envF).trace.fetches =
      (FurbooruDownloader.download_by_tags bl dbT seen dl₂ k envF).trace.fetches
    ∧ (FurbooruDownloader.download_by_tags bl dbT seen dl₁ k envF).trace.attempts =
      (FurbooruDownloader.download_by_tags bl dbT seen dl₂ k envF).trace.attempts := by
  refine ⟨?_, ?_, ?_, ?_, ?_, ?_, ?_, ?_, ?_, ?_⟩
  · rw [e621_download_page_spec]
  · rw [e621_download_page_spec]
  · rw [e621_download_page_spec]
  · rw [furbooru_download_page_spec]
  · rw [furbooru_download_page_spec]
  · rw [furbooru_download_page_spec]
  · rw [e621_run_trace, e621_run_trace]
    exact (e621_go_dl_independent site bl dbT seen dl₁ dl₂ k envE 1).1
  · rw [e621_run_trace, e621_run_trace]
    exact (e621_go_dl_independent site bl dbT seen dl₁ dl₂ k envE 1).2
  · rw [furbooru_run_trace, furbooru_run_trace]
    exact (furbooru_go_dl_independent bl dbT seen dl₁ dl₂ k envF 1).1
  · rw [furbooru_run_trace, furbooru_run_trace]
    exact (furbooru_go_dl_independent bl dbT seen dl₁ dl₂ k envF 1).2

theorem luscious_album_shape (url : String) (dl : String → Bool)
    (fsL : List String) (envL : List LusciousPageResult) :
    LusciousDownloader.download_album url dl fsL envL
        = ⟨false, none, ⟨0, [], [], [], none⟩⟩
    ∨ LusciousDownloader.download_album url dl fsL envL
        = (match (luscious_go dl 1 fsL envL).err with
           | some e => ⟨false, some e, luscious_go dl 1 fsL envL⟩
           | none => ⟨decide (0 < (luscious_go dl 1 fsL envL).written.length), none,
                      luscious_go dl 1 fsL envL⟩) := by
  unfold LusciousDownloader.download_album
  dsimp only
  by_cases h1 : (pySplitChar '/' url).length < 6
  · rw [if_pos h1]
    exact Or.inl rfl
  · rw [if_neg h1]
    by_cases h2 : ((pySplitChar '/' url).getD 3 "" == "pictures") = true
    · rw [if_pos h2]
      dsimp only
      by_cases h4 : (afterLastChar '_' ((pySplitChar '/' url).getD 5 "") == "") = true
      · rw [if_pos h4]
        exact Or.inl rfl
      · rw [if_neg h4]
        exact Or.inr rfl
    · rw [if_neg h2]
      by_cases h3 : ((pySplitChar '/' url).getD 3 "" == "album"
          || (pySplitChar '/' url).getD 3 "" == "albums") = true
      · rw [if_pos h3]
        dsimp only
        by_cases h4 : (afterLastChar '_' ((pySplitChar '/' url).getD 4 "") == "") = true
        · rw [if_pos h4]
          exact Or.inl rfl
        · rw [if_neg h4]
          exact Or.inr rfl
      · rw [if_neg h3]
        exact Or.inl rfl

/-- C7: whenever an exception escapes the page loop of a downloader run,
the top-level function returns `false` and reports the error text through
the progress callback; the e621, furbooru, rule34 and luscious runs all
behave this way. -/
theorem c7_exception_handling (site : String) (bl : List String) (dbT : Bool)
    (seen : List String) (dl : String → Bool) (k : Nat)
    (envE : List E621PageResult) (envF : List FurbooruPageResult)
    (fs fsL : List String) (envR : List R34PageResult) (url : String)
    (envL : List LusciousPageResult) (e : String) :
    ((E621Downloader.download_by_tags site bl dbT seen dl k envE).trace.err = some e →
      (E621Downloader.download_by_tags site bl dbT seen dl k envE).ok = false
      ∧ (E621Downloader.download_by_tags site bl dbT seen dl k envE).errorReported
          = some e)
    ∧ ((FurbooruDownloader.download_by_tags bl dbT seen dl k envF).trace.err = some e →
      (FurbooruDownloader.download_by_tags bl dbT seen dl k envF).ok = false
      ∧ (FurbooruDownloader.download_by_tags bl dbT seen dl k envF).errorReported
          = some e)
    ∧ ((Rule34Downloader.download_by_tags dl k fs envR).trace.err = some e →
      (Rule34Downloader.download_by_tags dl k fs envR).ok = false
      ∧ (Rule34Downloader.download_by_tags dl k fs envR).errorReported = some e)
    ∧ ((LusciousDownloader.download_album url dl fsL envL).trace.err = some e →
      (LusciousDownloader.download_album url dl fsL envL).ok = false
      ∧ (LusciousDownloader.download_album url dl fsL envL).errorReported = some e) := by
  refine ⟨?_, ?_, ?_, ?_⟩
  · intro h
    rw [e621_run_trace] at h
    unfold E621Downloader.download_by_tags
    simp [h]
  · intro h
    rw [furbooru_run_trace] at h
    unfold FurbooruDownloader.download_by_tags
    simp [h]
  · intro h
    rw [rule34_run_trace] at h
    unfold Rule34Downloader.download_by_tags
    simp [h]
  · rcases luscious_album_shape url dl fsL envL with hs | hs
    · rw [hs]
      intro h
      simp at h
    · rw [hs]
      cases he : (luscious_go dl 1 fsL envL).err <;> simp [he]

/-- C7 witness: an exception string raised on the first page makes each
of the four downloaders return `false` and report that string. -/
theorem c7_exception_handling_witness :
    ((E621Downloader.download_by_tags "e621" [] false [] (fun _ => true) 0
        [E621PageResult.raised "boom"]).ok = false
      ∧ (E621Downloader.download_by_tags "e621" [] false [] (fun _ => true) 0
        [E621PageResult.raised "boom"]).errorReported = some "boom")
    ∧ ((FurbooruDownloader.download_by_tags [] false [] (fun _ => true) 0
        [FurbooruPageResult.raised "boom"]).ok = false
      ∧ (FurbooruDownloader.download_by_tags [] false [] (fun _ => true) 0
        [FurbooruPageResult.raised "boom"]).errorReported = some "boom")
    ∧ ((Rule34Downloader.download_by_tags (fun _ => true) 0 []
        [R34PageResult.raised "boom"]).ok = false
      ∧ (Rule34Downloader.download_by_tags (fun _ => true) 0 []
        [R34PageResult.raised "boom"]).errorReported = some "boom")
    ∧ ((LusciousDownloader.download_album "https://x.net/albums/a_1/" (fun _ => true) []
        [LusciousPageResult.raised "boom"]).ok = false
      ∧ (LusciousDownloader.download_album "https://x.net/albums/a_1/" (fun _ => true) []
        [LusciousPageResult.raised "boom"]).errorReported = some "boom") := by
  have h := c7_exception_handling "e621" [] false [] (fun _ => true) 0
    [E621PageResult.raised "boom"] [FurbooruPageResult.raised "boom"]
    [] [] [R34PageResult.raised "boom"] "https://x.net/albums/a_1/"
    [LusciousPageResult.raised "boom"] "boom"
  exact ⟨h.1 rfl, h.2.1 rfl, h.2.2.1 rfl, h.2.2.2 rfl⟩

/-- C8: the return value of the e621-family run is `true` exactly when no
exception escaped its loop, independently of how many items were
downloaded; in particular a fully-deduplicated run (the only post on the
page is already in the seen store) downloads nothing and still returns
`true`. -/
theorem c8_success_semantics :
    (∀ (site : String) (bl : List String) (dbT : Bool) (seen : List String)
        (dl : String → Bool) (k : Nat) (env : List E621PageResult),
      (E621Downloader.download_by_tags site bl dbT seen dl k env).ok =
        ((e621_go site bl dbT seen dl k 1 env).err).isNone)
    ∧ (E621Downloader.download_by_tags "e621" [] true ["1"] (fun _ => true) 2
        [E621PageResult.posts
          [⟨"1", some "u.png", "png", ⟨[], [], [], [], [], [], []⟩⟩]]).ok = true
    ∧ (E621Downloader.download_by_tags "e621" [] true ["1"] (fun _ => true) 2
        [E621PageResult.posts
          [⟨"1", some "u.png", "png", ⟨[], [], [], [], [], [], []⟩⟩]]).trace.written
        = [] := by
  refine ⟨?_, rfl, rfl⟩
  intro site bl dbT seen dl k env
  unfold E621Downloader.download_by_tags
  cases h : (e621_go site bl dbT seen dl k 1 env).err <;> simp [h]

theorem get_unique_key_tags (t : DownloadTask) (h : t.task_type = TaskType.tags) :
    get_unique_key t =
      t.site ++ "|tags|" ++ pyStrip (pyLower t.tags) ++ "|" ++
        (if t.max_pages == 0 then "unlimited" else toString t.max_pages) := by
  simp only [get_unique_key, h]
  by_cases he : t.tags == ""
  · have he2 : t.tags = "" := by simpa using he
    rw [he2]
    rfl
  · have he2 : (t.tags == "") = false := by simpa using he
    simp [he2]

theorem get_unique_key_url (t : DownloadTask) (h : t.task_type = TaskType.url) :
    get_unique_key t = t.site ++ "|url|" ++ pyRstripSlash (pyLower t.url) := by
  simp only [get_unique_key, h]

/-- C6 check: two URL tasks whose queries differ only by a trailing space
have the same identity under the claim normalization rule (lower-case,
trim, strip a trailing slash), yet the second is accepted into a queue
already holding the first: `get_unique_key` never trims whitespace from
URL queries. -/
theorem c6_counterexample :
    claim_normalized_identity
        ⟨"luscious", TaskType.url, "https://x.net/albums/a_1", "", 0⟩
      = claim_normalized_identity
        ⟨"luscious", TaskType.url, "https://x.net/albums/a_1 ", "", 0⟩
    ∧ add_to_queue none [⟨"luscious", TaskType.url, "https://x.net/albums/a_1", "", 0⟩]
        ⟨"luscious", TaskType.url, "https://x.net/albums/a_1 ", "", 0⟩
      = ([⟨"luscious", TaskType.url, "https://x.net/albums/a_1", "", 0⟩,
          ⟨"luscious", TaskType.url, "https://x.net/albums/a_1 ", "", 0⟩], true) := by
  exact ⟨by decide, by decide⟩

/-- C6 (amended): a task whose `get_unique_key` (site and mode, the tag
text lower-cased and stripped together with the page limit for tag tasks,
the URL lower-cased with trailing slashes stripped for URL tasks) matches
the current download or any queued task is rejected and the queue is left
unchanged; in particular a task differing from a queued one only in the
letter case of its tag text or URL is rejected. -/
theorem c6_queue_dedup (current : Option DownloadTask) (queue : List DownloadTask)
    (t q : DownloadTask) :
    (is_duplicate_task current queue t = true →
      add_to_queue current queue t = (queue, false))
    ∧ (q ∈ queue → get_unique_key t = get_unique_key q →
        add_to_queue current queue t = (queue, false))
    ∧ (q ∈ queue → t.task_type = TaskType.tags → q.task_type = TaskType.tags →
        t.site = q.site → t.max_pages = q.max_pages →
        pyLower t.tags = pyLower q.tags →
        add_to_queue current queue t = (queue, false))
    ∧ (q ∈ queue → t.task_type = TaskType.url → q.task_type = TaskType.url →
        t.site = q.site → pyLower t.url = pyLower q.url →
        add_to_queue current queue t = (queue, false)) := by
  have hrej : is_duplicate_task current queue t = true →
      add_to_queue current queue t = (queue, false) := by
    intro h
    simp [add_to_queue, h]
  have hdup : q ∈ queue → get_unique_key t = get_unique_key q →
      add_to_queue current queue t = (queue, false) := by
    intro hq hkey
    apply hrej
    unfold is_duplicate_task
    have hany : queue.any (fun q2 => get_unique_key t == get_unique_key q2) = true :=
      List.any_eq_true.mpr ⟨q, hq, by simp [hkey]⟩
    rw [hany]
    simp
  refine ⟨hrej, hdup, ?_, ?_⟩
  · intro hq htt hqt hsite hmp htags
    apply hdup hq
    rw [get_unique_key_tags t htt, get_unique_key_tags q hqt, hsite, hmp, htags]
  · intro hq htt hqt hsite hurl
    apply hdup hq
    rw [get_unique_key_url t htt, get_unique_key_url q hqt, hsite, hurl]

/-- C6 witness: a tag task differing from the queued one only in letter
case is rejected and leaves the queue unchanged. -/
theorem c6_queue_dedup_witness :
    add_to_queue none [⟨"e621", TaskType.tags, "", "Cat Dog", 3⟩]
      ⟨"e621", TaskType.tags, "", "cAT dOG", 3⟩
      = ([⟨"e621", TaskType.tags, "", "Cat Dog", 3⟩], false) :=
  (c6_queue_dedup none [⟨"e621", TaskType.tags, "", "Cat Dog", 3⟩]
      ⟨"e621", TaskType.tags, "", "cAT dOG", 3⟩
      ⟨"e621", TaskType.tags, "", "Cat Dog", 3⟩).2.2.1
    (List.mem_singleton.mpr rfl) rfl rfl rfl rfl (by decide)

/-- The per-item filters of the e621 and furbooru downloaders do enforce
the blacklist and the seen store: an item whose collected tags meet the
blacklist is never approved, and an item whose id sits in the enabled
seen store is never approved. -/
theorem approve_respects_blacklist_and_store (site : String) (bl : List String)
    (dbT : Bool) (seen : List String) (p : E621Post) (it : FurbooruItem) :
    (e621_blacklisted bl (e621_collect_tags site p.tags) = true →
      e621_approve_post site bl dbT seen p = none)
    ∧ (dbT = true → seen.contains p.id = true →
      e621_approve_post site bl dbT seen p = none)
    ∧ (it.tags.any (fun tg => bl.contains tg) = true →
      furbooru_approve_item bl dbT seen it = none)
    ∧ (dbT = true → seen.contains it.id = true →
      furbooru_approve_item bl dbT seen it = none) := by
  refine ⟨?_, ?_, ?_, ?_⟩
  · intro hb
    unfold e621_approve_post
    cases p.fileUrl with
    | none => rfl
    | some url =>
      dsimp only
      by_cases hu : (url == "") = true
      · rw [if_pos hu]
      · rw [if_neg hu, if_pos hb]
  · intro hd hs
    unfold e621_approve_post
    cases p.fileUrl with
    | none => rfl
    | some url =>
      dsimp only
      by_cases hu : (url == "") = true
      · rw [if_pos hu]
      · rw [if_neg hu]
        by_cases hb : e621_blacklisted bl (e621_collect_tags site p.tags) = true
        · rw [if_pos hb]
        · have hc : (dbT && seen.contains p.id) = true := by rw [hd, hs]; rfl
          rw [if_neg hb, if_pos hc]
  · intro hb
    unfold furbooru_approve_item
    by_cases hh : it.hidden_from_users = true
    · rw [if_pos hh]
    · rw [if_neg hh, if_pos hb]
  · intro hd hs
    unfold furbooru_approve_item
    by_cases hh : it.hidden_from_users = true
    · rw [if_pos hh]
    · rw [if_neg hh]
      by_cases hb : (it.tags.any fun tg => bl.contains tg) = true
      · rw [if_pos hb]
      · rw [if_neg hb]
        cases hfu : it.fullUrl with
        | none => rfl
        | some url =>
          dsimp only
          by_cases hu : (url == "") = true
          · rw [if_pos hu]
          · have hc : (dbT && seen.contains it.id) = true := by rw [hd, hs]; rfl
            rw [if_neg hu, if_pos hc]

/-- C1 check at the failing input: `download_rule34_tags` is handed a
blacklist containing the tag `bad` and a page whose only item carries
that tag, yet the item is attempted and written; moreover the whole run
result is independent of the blacklist argument, which the wrapper drops
on the floor. -/
theorem c1_rule34_blacklist_ignored :
    (download_rule34_tags "tag" ["bad"] 0 none (fun _ => true) []
        [R34PageResult.items
          [⟨some "http://img/1.png", some "1", none, ["bad"]⟩]]).trace.attempts = ["1"]
    ∧ (download_rule34_tags "tag" ["bad"] 0 none (fun _ => true) []
        [R34PageResult.items
          [⟨some "http://img/1.png", some "1", none, ["bad"]⟩]]).trace.written = ["1"]
    ∧ ∀ (tags : String) (bl bl2 : List String) (maxPages : Nat)
        (db : Option String) (dl : String → Bool) (fs : List String)
        (env : List R34PageResult),
        download_rule34_tags tags bl maxPages db dl fs env =
          download_rule34_tags tags bl2 maxPages db dl fs env := by
  exact ⟨rfl, rfl, fun _ _ _ _ _ _ _ _ => rfl⟩

/-- C2 check at the failing input: `download_rule34_tags` is handed a
configured `db_file` while the seen store for the site contains the id
`1`; the page item with id `1` is attempted anyway, nothing is ever
appended to the store, and the whole run result is independent of the
`db_file` argument, which the wrapper drops on the floor. -/
theorem c2_rule34_seen_store_ignored :
    (download_rule34_tags "tag" [] 0 (some "db/rule34.db") (fun _ => true) []
        [R34PageResult.items
          [⟨some "http://img/1.png", some "1", none, []⟩]]).trace.attempts = ["1"]
    ∧ (download_rule34_tags "tag" [] 0 (some "db/rule34.db") (fun _ => true) []
        [R34PageResult.items
          [⟨some "http://img/1.png", some "1", none, []⟩]]).trace.dbAppends = []
    ∧ ∀ (tags : String) (bl : List String) (maxPages : Nat)
        (db1 db2 : Option String) (dl : String → Bool) (fs : List String)
        (env : List R34PageResult),
        download_rule34_tags tags bl maxPages db1 dl fs env =
          download_rule34_tags tags bl maxPages db2 dl fs env := by
  exact ⟨rfl, rfl, fun _ _ _ _ _ _ _ _ => rfl⟩

end NNDownloader
